import Mathlib

/-!
Verification of the pinocchio vault program: a shallow embedding of the two
instruction handlers, Deposit (src/src/instructions/deposit.rs) and Withdraw
(src/src/instructions/withdraw.rs), together with theorems settling the
specification claims about them.

Bytes are modelled as `Nat`, byte buffers as `List Nat`, lamport balances as
`Nat`, and the clock's unix timestamp as `Int` (Rust `i64`).  Fallible Rust
code returning `Result<T, ProgramError>` becomes `VResult T`, whose failure
side also has a constructor for a Rust panic (an abort that is not a returned
`ProgramError`).
-/

namespace Vault

/-- The subset of `pinocchio::program_error::ProgramError` variants this
program can produce, plus `Custom` for system-program errors surfaced through
CPI. -/
inductive ProgramError where
  | NotEnoughAccountKeys
  | InvalidAccountOwner
  | InvalidAccountData
  | InvalidInstructionData
  | MissingRequiredSignature
  | Custom : Nat → ProgramError
  deriving DecidableEq, Repr

/-- How a handler can fail: a returned `ProgramError`, or a Rust panic (e.g.
`slice::split_at` with an out-of-range midpoint aborts instead of returning
an error). -/
inductive Failure where
  | err : ProgramError → Failure
  | panicked
  deriving DecidableEq, Repr

/-- `Result<T, ProgramError>` extended with the panic outcome. -/
inductive VResult (α : Type) where
  | ok : α → VResult α
  | fail : Failure → VResult α
  deriving DecidableEq, Repr

/-- The fields of `pinocchio::account_info::AccountInfo` this program reads:
the account address (`key`), the owning program (`owner`, read by
`is_owned_by`), the balance (`lamports`) and the transaction-signer flag
(`is_signer`). -/
structure AccountInfo where
  key : List Nat
  owner : List Nat
  lamports : Nat
  is_signer : Bool
  deriving DecidableEq, Repr

/-- `pinocchio_system::ID`, the native system program's 32-byte address
(all-zero base58 `11111111111111111111111111111111`). -/
def systemProgramID : List Nat := List.replicate 32 0

/-- `crate::ID`, this program's own 32-byte identity.  Its concrete value is
set at deployment and never inspected by the handlers, which only pass it to
address derivation; any fixed 32-byte value distinct from the system
program's models it. -/
def crateID : List Nat := List.replicate 32 9

/-- The literal seed label `b"vault"` (ASCII). -/
def vaultSeed : List Nat := [118, 97, 117, 108, 116]

/-- Modelled from the spec: the platform's standard deterministic-address
algorithm (`pinocchio::pubkey` derivation, an external collaborator, is not
part of this repository).  The spec requires only that the address is a
deterministic function of the seed list and the program identity; this model
uses a length-prefixed injective encoding of the seeds followed by the
program identity. -/
def create_program_address (seeds : List (List Nat)) (program_id : List Nat) : List Nat :=
  seeds.foldr (fun s acc => s.length :: (s ++ acc)) (255 :: program_id)

/-- Modelled from the spec: `pinocchio::pubkey::find_program_address`, the
canonical-bump search.  The spec does not constrain which bump the search
settles on, only that the result is deterministic; this model always settles
on bump 255 (the first candidate of the real search). -/
def find_program_address (seeds : List (List Nat)) (program_id : List Nat) :
    List Nat × Nat :=
  (create_program_address (seeds ++ [[255]]) program_id, 255)

/-- Modelled from the spec: the native balance-transfer primitive
(`pinocchio_system::instructions::Transfer::invoke`), an external
collaborator.  It is all-or-nothing: debiting `fromAcc` requires it to be a
transaction signer, and the debit must be covered (else the system program's
insufficient-funds custom error).  Returns the updated `(fromAcc, toAcc)`
lamport balances. -/
def transfer_invoke (fromAcc toAcc : AccountInfo) (lamports : Nat) :
    VResult (Nat × Nat) :=
  if fromAcc.is_signer then
    if lamports ≤ fromAcc.lamports then
      .ok (fromAcc.lamports - lamports, toAcc.lamports + lamports)
    else .fail (.err (.Custom 1))
  else .fail (.err .MissingRequiredSignature)

/-- Modelled from the spec: `Transfer::invoke_signed`, the balance transfer
authorized by a derived-address signer credential.  The runtime derives the
address from the supplied seeds and the calling program's identity and treats
that address as a signer of the inner transfer; debiting `fromAcc` therefore
succeeds only when the derived address equals `fromAcc`'s address, and fails
with the missing-signature error otherwise. -/
def transfer_invoke_signed (derived : List Nat) (fromAcc toAcc : AccountInfo)
    (lamports : Nat) : VResult (Nat × Nat) :=
  if derived = fromAcc.key then
    if lamports ≤ fromAcc.lamports then
      .ok (fromAcc.lamports - lamports, toAcc.lamports + lamports)
    else .fail (.err (.Custom 1))
  else .fail (.err .MissingRequiredSignature)

/-- `u64::from_le_bytes` on a little-endian byte list. -/
def u64_from_le (bs : List Nat) : Nat :=
  bs.foldr (fun b acc => b + 256 * acc) 0

/-- `i64::from_le_bytes`: the 8 little-endian bytes read as an unsigned value
and reinterpreted in two's complement. -/
def i64_from_le (bs : List Nat) : Int :=
  let u := u64_from_le bs
  if u < 2 ^ 63 then (u : Int) else (u : Int) - 2 ^ 64

/-! ## Deposit (src/src/instructions/deposit.rs) -/

/-- `DepositAccounts`: the three accounts after validation. -/
structure DepositAccounts where
  payer : AccountInfo
  vault : AccountInfo
  system_program : AccountInfo
  deriving DecidableEq, Repr

/-- `DepositAccounts::try_from(&[AccountInfo])` — deposit.rs lines 19-43.
Destructures exactly three accounts (else `NotEnoughAccountKeys`), then
checks in order: payer is a transaction signer, vault is owned by the system
program, vault balance is zero. -/
def DepositAccounts.tryFrom (accounts : List AccountInfo) :
    VResult DepositAccounts :=
  match accounts with
  | [payer, vault, system_program] =>
    if payer.is_signer = false then .fail (.err .InvalidAccountOwner)
    else if vault.owner ≠ systemProgramID then .fail (.err .InvalidAccountOwner)
    else if vault.lamports ≠ 0 then .fail (.err .InvalidAccountData)
    else .ok ⟨payer, vault, system_program⟩
  | _ => .fail (.err .NotEnoughAccountKeys)

/-- `DepositInstructionData`: the decoded 41-byte payload. -/
structure DepositInstructionData where
  pubkey : List Nat
  amount : Nat
  deriving DecidableEq, Repr

/-- `DepositInstructionData::try_from(&[u8])` — deposit.rs lines 51-75.
Requires exactly 41 bytes (33-byte compressed P-256 public key followed by a
little-endian `u64` amount) and a non-zero amount. -/
def DepositInstructionData.tryFrom (data : List Nat) :
    VResult DepositInstructionData :=
  if data.length ≠ 33 + 8 then .fail (.err .InvalidInstructionData)
  else
    let pubkey := data.take 33
    let amount := u64_from_le (data.drop 33)
    if amount = 0 then .fail (.err .InvalidInstructionData)
    else .ok ⟨pubkey, amount⟩

/-- `Deposit::try_from((&[u8], &[AccountInfo]))` — deposit.rs lines 82-94.
Validates the accounts first, then decodes the payload. -/
def Deposit.tryFrom (data : List Nat) (accounts : List AccountInfo) :
    VResult (DepositAccounts × DepositInstructionData) :=
  match DepositAccounts.tryFrom accounts with
  | .fail e => .fail e
  | .ok accs =>
    match DepositInstructionData.tryFrom data with
    | .fail e => .fail e
    | .ok idata => .ok (accs, idata)

/-- `Deposit::process` — deposit.rs lines 99-121.  Derives the canonical
vault address from `("vault", pubkey[..1], pubkey[1..33])` and this program's
identity, rejects on mismatch with the supplied vault account, then invokes
an unsigned transfer of `amount` from payer to vault.  On success returns the
updated `(payer, vault)` lamport balances. -/
def Deposit.process (accs : DepositAccounts) (idata : DepositInstructionData) :
    VResult (Nat × Nat) :=
  let vault_key :=
    (find_program_address [vaultSeed, idata.pubkey.take 1, idata.pubkey.drop 1]
      crateID).fst
  if vault_key ≠ accs.vault.key then .fail (.err .InvalidAccountOwner)
  else transfer_invoke accs.payer accs.vault idata.amount

/-- The whole Deposit handler: `Deposit::try_from` then `Deposit::process`. -/
def deposit (data : List Nat) (accounts : List AccountInfo) :
    VResult (Nat × Nat) :=
  match Deposit.tryFrom data accounts with
  | .fail e => .fail e
  | .ok (accs, idata) => Deposit.process accs idata

/-! ## Withdraw (src/src/instructions/withdraw.rs) -/

/-- `WithdrawAccounts`: the four accounts after validation. -/
structure WithdrawAccounts where
  payer : AccountInfo
  vault : AccountInfo
  instructions : AccountInfo
  system_program : AccountInfo
  deriving DecidableEq, Repr

/-- `WithdrawAccounts::try_from(&[AccountInfo])` — withdraw.rs lines 27-46.
Destructures exactly four accounts (else `NotEnoughAccountKeys`), then checks
in order: vault is owned by the system program, vault balance is non-zero.
The payer has no signer requirement. -/
def WithdrawAccounts.tryFrom (accounts : List AccountInfo) :
    VResult WithdrawAccounts :=
  match accounts with
  | [payer, vault, instructions, system_program] =>
    if vault.owner ≠ systemProgramID then .fail (.err .InvalidAccountOwner)
    else if vault.lamports = 0 then .fail (.err .InvalidAccountData)
    else .ok ⟨payer, vault, instructions, system_program⟩
  | _ => .fail (.err .NotEnoughAccountKeys)

/-- `WithdrawInstructionData::try_from(&[u8])` — withdraw.rs lines 53-65.
Requires exactly one byte, the bump. -/
def WithdrawInstructionData.tryFrom (data : List Nat) : VResult Nat :=
  if data.length ≠ 1 then .fail (.err .InvalidInstructionData)
  else .ok data.headI

/-- A successfully parsed secp256r1 verification instruction, as exposed by
`Secp256r1Instruction` (withdraw.rs lines 91-105): the asserted signature
count, the first signature's 33-byte compressed public key
(`get_signer(0)`), and the verified message bytes (`get_message_data(0)`). -/
structure SecpView where
  num_signatures : Nat
  signer : List Nat
  message : List Nat
  deriving DecidableEq, Repr

/-- The combined result of `Instructions::try_from`,
`get_instruction_relative(1)` and `Secp256r1Instruction::try_from`
(withdraw.rs lines 91-96): introspection of the instruction at relative
offset +1 either yields a parsed verification instruction or fails with a
`ProgramError` propagated by `?`. -/
inductive Introspection where
  | ok : SecpView → Introspection
  | fail : ProgramError → Introspection
  deriving DecidableEq, Repr

/-- `Withdraw::process` — withdraw.rs lines 89-137.  `now` is
`Clock::get()?.unix_timestamp`.  Mirrors the source's order exactly:
introspection of the +1 instruction, signature-count check, signer
extraction, `split_at(32)` on the message (which panics when the message is
shorter than 32 bytes), payer-binding check, expiry decode (`try_into` an
8-byte array, else `InvalidInstructionData`), expiry check, then the signed
transfer of the vault's entire balance.  On success returns the updated
`(vault, payer)` lamport balances. -/
def Withdraw.process (payer vault : AccountInfo) (bump : Nat)
    (introspect : Introspection) (now : Int) : VResult (Nat × Nat) :=
  match introspect with
  | .fail e => .fail (.err e)
  | .ok secp =>
    if secp.num_signatures ≠ 1 then .fail (.err .InvalidInstructionData)
    else
      let signer := secp.signer
      if secp.message.length < 32 then .fail .panicked
      else
        let payerBytes := secp.message.take 32
        let expiryBytes := secp.message.drop 32
        if payer.key ≠ payerBytes then .fail (.err .InvalidAccountOwner)
        else if expiryBytes.length ≠ 8 then .fail (.err .InvalidInstructionData)
        else
          let expiry := i64_from_le expiryBytes
          if now > expiry then .fail (.err .InvalidInstructionData)
          else
            let derived :=
              create_program_address
                [vaultSeed, signer.take 1, signer.drop 1, [bump]] crateID
            transfer_invoke_signed derived vault payer vault.lamports

/-- The whole Withdraw handler: `Withdraw::try_from` (accounts first, then
payload — withdraw.rs lines 75-83) followed by `Withdraw::process`. -/
def withdraw (data : List Nat) (accounts : List AccountInfo)
    (introspect : Introspection) (now : Int) : VResult (Nat × Nat) :=
  match WithdrawAccounts.tryFrom accounts with
  | .fail e => .fail e
  | .ok accs =>
    match WithdrawInstructionData.tryFrom data with
    | .fail e => .fail e
    | .ok bump => Withdraw.process accs.payer accs.vault bump introspect now

/-! ## Concrete inputs used by witnesses and counterexamples -/

/-- A 33-byte compressed P-256 public key used as the vault owner / signer. -/
def sgC : List Nat := List.replicate 33 2

/-- A 32-byte payer address. -/
def payerKeyC : List Nat := List.replicate 32 3

/-- Expiry bytes encoding the timestamp 1 (little-endian `i64`). -/
def ebC : List Nat := [1, 0, 0, 0, 0, 0, 0, 0]

/-- A well-formed 40-byte verified message: payer address then expiry. -/
def msgC : List Nat := payerKeyC ++ ebC

/-- A well-formed verification instruction: one signature over `msgC`. -/
def secpC : SecpView := ⟨1, sgC, msgC⟩

/-- A verification instruction whose message is only 31 bytes long. -/
def secpShortC : SecpView := ⟨1, sgC, List.replicate 31 0⟩

/-- The payer account, address `payerKeyC`, balance 10, not a signer. -/
def payerC : AccountInfo := ⟨payerKeyC, systemProgramID, 10, false⟩

/-- The payer account as a transaction signer with balance 50 (Deposit). -/
def payerSignerC : AccountInfo := ⟨payerKeyC, systemProgramID, 50, true⟩

/-- The address derived from `("vault", sgC[..1], sgC[1..], bump 5)`. -/
def derivedC : List Nat :=
  create_program_address [vaultSeed, sgC.take 1, sgC.drop 1, [5]] crateID

/-- A funded, system-owned vault at an address that does NOT re-derive. -/
def vaultC : AccountInfo := ⟨[7], systemProgramID, 100, false⟩

/-- A funded, system-owned vault at the correctly derived address. -/
def vaultGoodC : AccountInfo := ⟨derivedC, systemProgramID, 100, false⟩

/-- A system-owned vault with zero balance (wrong address, irrelevant). -/
def vaultZeroC : AccountInfo := ⟨[7], systemProgramID, 0, false⟩

/-- A zero-balance vault owned by some non-system program. -/
def vaultWrongOwnerZeroC : AccountInfo := ⟨[7], [1], 0, false⟩

/-- The instructions-sysvar account (not validated). -/
def instrAccC : AccountInfo := ⟨[8], [0], 0, false⟩

/-- The system-program account (not validated). -/
def sysAccC : AccountInfo := ⟨systemProgramID, [0], 0, false⟩

/-- The canonical vault address for owner `sgC` on the Deposit path. -/
def depositVaultKeyC : List Nat :=
  (find_program_address [vaultSeed, sgC.take 1, sgC.drop 1] crateID).fst

/-- A zero-balance, system-owned vault at the canonical Deposit address. -/
def depositVaultC : AccountInfo := ⟨depositVaultKeyC, systemProgramID, 0, false⟩

/-- A 41-byte Deposit payload: owner key `sgC`, amount 42. -/
def depositDataC : List Nat := sgC ++ [42, 0, 0, 0, 0, 0, 0, 0]

end Vault

namespace Vault

/-! ## Helper lemmas -/

/-- With four accounts whose vault passes ownership and balance checks and a
one-byte payload, the Withdraw handler reduces to `Withdraw::process`. -/
theorem withdraw_unfold_ok (p v i s : AccountInfo) (b : Nat)
    (introspect : Introspection) (now : Int)
    (hown : v.owner = systemProgramID) (hlam : v.lamports ≠ 0) :
    withdraw [b] [p, v, i, s] introspect now = Withdraw.process p v b introspect now := by
  simp [withdraw, WithdrawAccounts.tryFrom, WithdrawInstructionData.tryFrom, hown, hlam]

/-- On a well-formed proof whose message is the payer's 32-byte key followed
by 8 expiry bytes, `Withdraw::process` reduces to the expiry check followed
by the signed transfer. -/
theorem process_expiry_stage (p v : AccountInfo) (b : Nat) (sg eb : List Nat)
    (now : Int) (hplen : p.key.length = 32) (heblen : eb.length = 8) :
    Withdraw.process p v b (.ok ⟨1, sg, p.key ++ eb⟩) now =
      if i64_from_le eb < now then .fail (.err .InvalidInstructionData)
      else transfer_invoke_signed
        (create_program_address [vaultSeed, sg.take 1, sg.drop 1, [b]] crateID)
        v p v.lamports := by
  have ht : (p.key ++ eb).take 32 = p.key := by
    rw [← hplen]; exact List.take_left p.key eb
  have hd : (p.key ++ eb).drop 32 = eb := by
    rw [← hplen]; exact List.drop_left p.key eb
  simp [Withdraw.process, List.length_append, hplen, heblen, ht, hd]

end Vault

namespace Vault

/-! ## Claim theorems -/

/-- C10: an account list of any length other than exactly three (Deposit) or
exactly four (Withdraw) is rejected with `NotEnoughAccountKeys`; extra
accounts are rejected the same way as missing ones. -/
theorem c10_account_arity (accounts : List AccountInfo) :
    (accounts.length ≠ 3 →
      DepositAccounts.tryFrom accounts = .fail (.err .NotEnoughAccountKeys)) ∧
    (accounts.length ≠ 4 →
      WithdrawAccounts.tryFrom accounts = .fail (.err .NotEnoughAccountKeys)) := by
  constructor
  · intro h
    rcases accounts with _ | ⟨a, _ | ⟨b, _ | ⟨c, _ | ⟨d, rest⟩⟩⟩⟩
    · rfl
    · rfl
    · rfl
    · exact absurd rfl h
    · rfl
  · intro h
    rcases accounts with _ | ⟨a, _ | ⟨b, _ | ⟨c, _ | ⟨d, _ | ⟨e, rest⟩⟩⟩⟩⟩
    · rfl
    · rfl
    · rfl
    · rfl
    · exact absurd rfl h
    · rfl

/-- Witness for C10: five accounts for Withdraw and four for Deposit (more
than required) are rejected with `NotEnoughAccountKeys`. -/
theorem c10_account_arity_witness :
    DepositAccounts.tryFrom [sysAccC, sysAccC, sysAccC, sysAccC] =
      .fail (.err .NotEnoughAccountKeys) ∧
    WithdrawAccounts.tryFrom [sysAccC, sysAccC, sysAccC, sysAccC, sysAccC] =
      .fail (.err .NotEnoughAccountKeys) :=
  ⟨(c10_account_arity [sysAccC, sysAccC, sysAccC, sysAccC]).1 (by decide),
   (c10_account_arity [sysAccC, sysAccC, sysAccC, sysAccC, sysAccC]).2 (by decide)⟩

/-- C8: with exactly three Deposit accounts, the checks run in order — payer
not a signer ⇒ `InvalidAccountOwner`; else vault not system-owned ⇒
`InvalidAccountOwner`; else vault balance non-zero ⇒ `InvalidAccountData`;
else validation succeeds for every system-program account value (it is not
validated beyond presence). -/
theorem c8_deposit_account_checks (p v s : AccountInfo) :
    (p.is_signer = false →
      DepositAccounts.tryFrom [p, v, s] = .fail (.err .InvalidAccountOwner)) ∧
    (p.is_signer = true → v.owner ≠ systemProgramID →
      DepositAccounts.tryFrom [p, v, s] = .fail (.err .InvalidAccountOwner)) ∧
    (p.is_signer = true → v.owner = systemProgramID → v.lamports ≠ 0 →
      DepositAccounts.tryFrom [p, v, s] = .fail (.err .InvalidAccountData)) ∧
    (p.is_signer = true → v.owner = systemProgramID → v.lamports = 0 →
      DepositAccounts.tryFrom [p, v, s] = .ok ⟨p, v, s⟩) := by
  refine ⟨fun h1 => ?_, fun h1 h2 => ?_, fun h1 h2 h3 => ?_, fun h1 h2 h3 => ?_⟩
  · simp [DepositAccounts.tryFrom, h1]
  · simp [DepositAccounts.tryFrom, h1, h2]
  · simp [DepositAccounts.tryFrom, h1, h2, h3]
  · simp [DepositAccounts.tryFrom, h1, h2, h3]

/-- Witness for C8 at concrete accounts, one instance per check. -/
theorem c8_deposit_account_checks_witness :
    DepositAccounts.tryFrom [payerC, depositVaultC, sysAccC] =
      .fail (.err .InvalidAccountOwner) ∧
    DepositAccounts.tryFrom [payerSignerC, vaultWrongOwnerZeroC, sysAccC] =
      .fail (.err .InvalidAccountOwner) ∧
    DepositAccounts.tryFrom [payerSignerC, vaultC, sysAccC] =
      .fail (.err .InvalidAccountData) ∧
    DepositAccounts.tryFrom [payerSignerC, depositVaultC, sysAccC] =
      .ok ⟨payerSignerC, depositVaultC, sysAccC⟩ :=
  ⟨(c8_deposit_account_checks payerC depositVaultC sysAccC).1 rfl,
   (c8_deposit_account_checks payerSignerC vaultWrongOwnerZeroC sysAccC).2.1
     rfl (by decide),
   (c8_deposit_account_checks payerSignerC vaultC sysAccC).2.2.1
     rfl (by decide) (by decide),
   (c8_deposit_account_checks payerSignerC depositVaultC sysAccC).2.2.2
     rfl (by decide) rfl⟩

/-- C4: once the Withdraw accounts and payload validate, a verification
instruction at relative offset +1 asserting a signature count other than
exactly one makes Withdraw fail with `InvalidInstructionData`. -/
theorem c4_signature_count (p v i s : AccountInfo) (b : Nat) (secp : SecpView)
    (now : Int) (hown : v.owner = systemProgramID) (hlam : v.lamports ≠ 0)
    (hns : secp.num_signatures ≠ 1) :
    withdraw [b] [p, v, i, s] (.ok secp) now = .fail (.err .InvalidInstructionData) := by
  rw [withdraw_unfold_ok p v i s b (.ok secp) now hown hlam]
  simp [Withdraw.process, hns]

/-- Witness for C4: zero asserted signatures are rejected. -/
theorem c4_signature_count_witness :
    withdraw [5] [payerC, vaultGoodC, instrAccC, sysAccC] (.ok ⟨0, sgC, msgC⟩) 0 =
      .fail (.err .InvalidInstructionData) :=
  c4_signature_count payerC vaultGoodC instrAccC sysAccC 5 ⟨0, sgC, msgC⟩ 0
    rfl (by decide) (by decide)

end Vault

namespace Vault

/-- When the message's first 32 bytes equal the payer's key (and the proof
asserts one signature over a 40-byte message), `Withdraw::process` never
returns `InvalidAccountOwner`: every later outcome is a different error or
success. -/
theorem process_payer_match_ne_iao (p v : AccountInfo) (b : Nat)
    (secp : SecpView) (now : Int) (hns : secp.num_signatures = 1)
    (hml : secp.message.length = 40) (hpk : p.key = secp.message.take 32) :
    Withdraw.process p v b (.ok secp) now ≠ .fail (.err .InvalidAccountOwner) := by
  have h32 : ¬ secp.message.length < 32 := by rw [hml]; decide
  have hdl : (secp.message.drop 32).length = 8 := by
    rw [List.length_drop, hml]
  simp only [Withdraw.process, hns, ne_eq, not_true_eq_false, if_false, h32,
    hpk, hdl]
  intro h
  split_ifs at h with h1
  · simp at h
  · simp only [transfer_invoke_signed] at h
    split_ifs at h <;> simp at h

/-- When the message's first 32 bytes differ from the payer's key,
`Withdraw::process` fails with `InvalidAccountOwner` (given one signature and
a message long enough for `split_at(32)` not to panic). -/
theorem process_payer_mismatch (p v : AccountInfo) (b : Nat) (secp : SecpView)
    (now : Int) (hns : secp.num_signatures = 1)
    (h32 : ¬ secp.message.length < 32) (hpk : p.key ≠ secp.message.take 32) :
    Withdraw.process p v b (.ok secp) now = .fail (.err .InvalidAccountOwner) := by
  simp [Withdraw.process, hns, h32, hpk]

/-- C3: with validated accounts and a well-formed adjacent verification
instruction (one signature, 40-byte message), Withdraw fails with
`InvalidAccountOwner` exactly when the message's first 32 bytes differ from
the supplied payer account's address; it proceeds past the check only on
byte-for-byte equality. -/
theorem c3_payer_binding (p v i s : AccountInfo) (b : Nat) (secp : SecpView)
    (now : Int) (hown : v.owner = systemProgramID) (hlam : v.lamports ≠ 0)
    (hns : secp.num_signatures = 1) (hml : secp.message.length = 40) :
    withdraw [b] [p, v, i, s] (.ok secp) now = .fail (.err .InvalidAccountOwner) ↔
      p.key ≠ secp.message.take 32 := by
  rw [withdraw_unfold_ok p v i s b (.ok secp) now hown hlam]
  constructor
  · intro h
    rcases eq_or_ne p.key (secp.message.take 32) with hpk | hpk
    · exact absurd h (process_payer_match_ne_iao p v b secp now hns hml hpk)
    · exact hpk
  · intro hpk
    have h32 : ¬ secp.message.length < 32 := by rw [hml]; decide
    exact process_payer_mismatch p v b secp now hns h32 hpk

/-- Witness for C3: a message naming a different payer is rejected with
`InvalidAccountOwner`. -/
theorem c3_payer_binding_witness :
    withdraw [5] [payerC, vaultGoodC, instrAccC, sysAccC]
      (.ok ⟨1, sgC, List.replicate 32 4 ++ ebC⟩) 0 =
      .fail (.err .InvalidAccountOwner) :=
  (c3_payer_binding payerC vaultGoodC instrAccC sysAccC 5
      ⟨1, sgC, List.replicate 32 4 ++ ebC⟩ 0 rfl (by decide) rfl
      (by decide)).mpr (by decide)

/-- C5: with validated accounts and a well-formed proof binding this payer,
letting expiry be the little-endian signed 64-bit timestamp in the message:
if now > expiry the call fails with `InvalidInstructionData`; if now ≤ expiry
(in particular now = expiry, the inclusive boundary) the expiry check passes
and the call proceeds to the signed transfer; now = expiry + 1 is rejected. -/
theorem c5_expiry_boundary (p v i s : AccountInfo) (b : Nat) (sg eb : List Nat)
    (now : Int) (hown : v.owner = systemProgramID) (hlam : v.lamports ≠ 0)
    (hplen : p.key.length = 32) (heblen : eb.length = 8) :
    (i64_from_le eb < now →
      withdraw [b] [p, v, i, s] (.ok ⟨1, sg, p.key ++ eb⟩) now =
        .fail (.err .InvalidInstructionData)) ∧
    (now ≤ i64_from_le eb →
      withdraw [b] [p, v, i, s] (.ok ⟨1, sg, p.key ++ eb⟩) now =
        transfer_invoke_signed
          (create_program_address [vaultSeed, sg.take 1, sg.drop 1, [b]] crateID)
          v p v.lamports) ∧
    (now = i64_from_le eb + 1 →
      withdraw [b] [p, v, i, s] (.ok ⟨1, sg, p.key ++ eb⟩) now =
        .fail (.err .InvalidInstructionData)) := by
  refine ⟨fun h => ?_, fun h => ?_, fun h => ?_⟩
  · rw [withdraw_unfold_ok p v i s b _ now hown hlam,
      process_expiry_stage p v b sg eb now hplen heblen, if_pos h]
  · rw [withdraw_unfold_ok p v i s b _ now hown hlam,
      process_expiry_stage p v b sg eb now hplen heblen, if_neg (not_lt.mpr h)]
  · rw [withdraw_unfold_ok p v i s b _ now hown hlam,
      process_expiry_stage p v b sg eb now hplen heblen,
      if_pos (by rw [h]; exact lt_add_one _)]

/-- Witness for C5: with expiry = 1, the call at now = 1 reaches the
transfer stage and the call at now = 2 is rejected as expired. -/
theorem c5_expiry_boundary_witness :
    withdraw [5] [payerC, vaultGoodC, instrAccC, sysAccC]
      (.ok ⟨1, sgC, payerC.key ++ ebC⟩) 1 =
      transfer_invoke_signed
        (create_program_address [vaultSeed, sgC.take 1, sgC.drop 1, [5]] crateID)
        vaultGoodC payerC vaultGoodC.lamports ∧
    withdraw [5] [payerC, vaultGoodC, instrAccC, sysAccC]
      (.ok ⟨1, sgC, payerC.key ++ ebC⟩) 2 =
      .fail (.err .InvalidInstructionData) :=
  ⟨(c5_expiry_boundary payerC vaultGoodC instrAccC sysAccC 5 sgC ebC 1
      rfl (by decide) (by decide) (by decide)).2.1 (by decide),
   (c5_expiry_boundary payerC vaultGoodC instrAccC sysAccC 5 sgC ebC 2
      rfl (by decide) (by decide) (by decide)).2.2 (by decide)⟩

/-- C7: with a decodable payload and validated accounts (payer signs, vault
system-owned with zero balance), a vault account whose address differs from
the canonical derivation for the payload's owner key makes Deposit fail with
`InvalidAccountOwner`, before any transfer. -/
theorem c7_deposit_derivation (p v s : AccountInfo) (data : List Nat)
    (hsig : p.is_signer = true) (hown : v.owner = systemProgramID)
    (hlam : v.lamports = 0) (hlen : data.length = 41)
    (hamt : u64_from_le (data.drop 33) ≠ 0)
    (hmis : (find_program_address
        [vaultSeed, (data.take 33).take 1, (data.take 33).drop 1]
        crateID).fst ≠ v.key) :
    deposit data [p, v, s] = .fail (.err .InvalidAccountOwner) := by
  rw [List.drop_one] at hmis
  simp [deposit, Deposit.tryFrom, DepositAccounts.tryFrom,
    DepositInstructionData.tryFrom, Deposit.process, hsig, hown, hlam, hlen,
    hamt, hmis]

/-- Witness for C7: a zero-balance system-owned vault at the wrong address is
rejected even though every other precondition holds. -/
theorem c7_deposit_derivation_witness :
    deposit depositDataC [payerSignerC, vaultZeroC, sysAccC] =
      .fail (.err .InvalidAccountOwner) :=
  c7_deposit_derivation payerSignerC vaultZeroC sysAccC depositDataC rfl
    (by decide) rfl (by decide) (by decide) (by decide)

/-- C9 counterexample: with an empty account list and an empty (hence
malformed) payload, Deposit fails with `NotEnoughAccountKeys`, not
`InvalidInstructionData` — `Deposit::try_from` validates accounts before
decoding the payload, contrary to the claimed codec-first control flow. -/
theorem c9_counterexample :
    deposit [] [] = .fail (.err .NotEnoughAccountKeys) ∧
    deposit [] [] ≠ .fail (.err .InvalidInstructionData) := by decide

/-- C9 (amended): once the accounts validate, a payload whose length is not
exactly 41 bytes or whose little-endian amount decodes to zero makes Deposit
fail with `InvalidInstructionData`. -/
theorem c9_payload_validation (p v s : AccountInfo) (data : List Nat)
    (hsig : p.is_signer = true) (hown : v.owner = systemProgramID)
    (hlam : v.lamports = 0)
    (h : data.length ≠ 41 ∨ u64_from_le (data.drop 33) = 0) :
    deposit data [p, v, s] = .fail (.err .InvalidInstructionData) := by
  rcases h with h | h
  · simp [deposit, Deposit.tryFrom, DepositAccounts.tryFrom,
      DepositInstructionData.tryFrom, hsig, hown, hlam, h]
  · by_cases hlen : data.length = 41
    · simp [deposit, Deposit.tryFrom, DepositAccounts.tryFrom,
        DepositInstructionData.tryFrom, hsig, hown, hlam, hlen, h]
    · simp [deposit, Deposit.tryFrom, DepositAccounts.tryFrom,
        DepositInstructionData.tryFrom, hsig, hown, hlam, hlen]

/-- Witness for C9 (amended): an empty payload with valid accounts. -/
theorem c9_payload_validation_witness :
    deposit [] [payerSignerC, depositVaultC, sysAccC] =
      .fail (.err .InvalidInstructionData) :=
  c9_payload_validation payerSignerC depositVaultC sysAccC [] rfl (by decide)
    rfl (Or.inl (by decide))

end Vault

namespace Vault

/-- C1 counterexample: a Withdraw whose supplied vault address does not
re-derive from the seeds is NOT rejected with `InvalidAccountOwner` by the
handler; the failure is the transfer primitive's missing-signature error,
raised during the transfer invocation. -/
theorem c1_counterexample :
    create_program_address [vaultSeed, sgC.take 1, sgC.drop 1, [5]] crateID ≠
      vaultC.key ∧
    withdraw [5] [payerC, vaultC, instrAccC, sysAccC] (.ok secpC) 0 =
      .fail (.err .MissingRequiredSignature) ∧
    withdraw [5] [payerC, vaultC, instrAccC, sysAccC] (.ok secpC) 0 ≠
      .fail (.err .InvalidAccountOwner) := by decide

/-- C1 (amended): past validation, payload decoding, introspection, payer
binding and expiry, the handler performs no explicit address comparison;
it hands the seeds `("vault", signer[..1], signer[1..], bump)` to the signed
transfer as the derivation-signer credential, so the call fails — with the
transfer's missing-signature error, during the transfer invocation — exactly
when the re-derived address differs from the supplied vault address, and
otherwise moves the vault's whole balance. -/
theorem c1_derivation_binding (p v i s : AccountInfo) (b : Nat)
    (sg eb : List Nat) (now : Int) (hown : v.owner = systemProgramID)
    (hlam : v.lamports ≠ 0) (hplen : p.key.length = 32) (heblen : eb.length = 8)
    (hexp : now ≤ i64_from_le eb) :
    (create_program_address [vaultSeed, sg.take 1, sg.drop 1, [b]] crateID ≠ v.key →
      withdraw [b] [p, v, i, s] (.ok ⟨1, sg, p.key ++ eb⟩) now =
        .fail (.err .MissingRequiredSignature)) ∧
    (create_program_address [vaultSeed, sg.take 1, sg.drop 1, [b]] crateID = v.key →
      withdraw [b] [p, v, i, s] (.ok ⟨1, sg, p.key ++ eb⟩) now =
        .ok (0, p.lamports + v.lamports)) := by
  refine ⟨fun hmis => ?_, fun hmatch => ?_⟩
  · rw [List.drop_one] at hmis
    rw [withdraw_unfold_ok p v i s b _ now hown hlam,
      process_expiry_stage p v b sg eb now hplen heblen,
      if_neg (not_lt.mpr hexp)]
    simp [transfer_invoke_signed, hmis]
  · rw [List.drop_one] at hmatch
    rw [withdraw_unfold_ok p v i s b _ now hown hlam,
      process_expiry_stage p v b sg eb now hplen heblen,
      if_neg (not_lt.mpr hexp)]
    simp [transfer_invoke_signed, hmatch]

/-- Witness for C1 (amended): mismatching vault fails with the transfer's
missing-signature error; matching vault drains 100 lamports to the payer. -/
theorem c1_derivation_binding_witness :
    withdraw [5] [payerC, vaultC, instrAccC, sysAccC]
      (.ok ⟨1, sgC, payerC.key ++ ebC⟩) 1 =
      .fail (.err .MissingRequiredSignature) ∧
    withdraw [5] [payerC, vaultGoodC, instrAccC, sysAccC]
      (.ok ⟨1, sgC, payerC.key ++ ebC⟩) 1 =
      .ok (0, payerC.lamports + vaultGoodC.lamports) :=
  ⟨(c1_derivation_binding payerC vaultC instrAccC sysAccC 5 sgC ebC 1
      rfl (by decide) (by decide) (by decide) (by decide)).1 (by decide),
   (c1_derivation_binding payerC vaultGoodC instrAccC sysAccC 5 sgC ebC 1
      rfl (by decide) (by decide) (by decide) (by decide)).2 rfl⟩

/-- C2 counterexample: a supplied vault account with zero balance but a
non-system owner makes Withdraw fail with `InvalidAccountOwner` (the
ownership check runs first), not `InvalidAccountData` as the claim's
universal statement requires. -/
theorem c2_counterexample :
    vaultWrongOwnerZeroC.lamports = 0 ∧
    withdraw [5] [payerC, vaultWrongOwnerZeroC, instrAccC, sysAccC]
      (.ok secpC) 0 = .fail (.err .InvalidAccountOwner) ∧
    withdraw [5] [payerC, vaultWrongOwnerZeroC, instrAccC, sysAccC]
      (.ok secpC) 0 ≠ .fail (.err .InvalidAccountData) := by decide

/-- C2 (amended): a system-owned vault with zero balance is rejected with
`InvalidAccountData` (zero balance behind a failing ownership check yields
`InvalidAccountOwner` instead); and every successful Withdraw leaves the
vault at exactly zero and the payer increased by the entire positive
pre-call vault balance — no partial withdrawal, no residual balance. -/
theorem c2_drain_semantics :
    (∀ (p v i s : AccountInfo) (data : List Nat) (introspect : Introspection)
      (now : Int), v.owner = systemProgramID → v.lamports = 0 →
      withdraw data [p, v, i, s] introspect now = .fail (.err .InvalidAccountData)) ∧
    (∀ (data : List Nat) (accounts : List AccountInfo)
      (introspect : Introspection) (now : Int) (out : Nat × Nat),
      withdraw data accounts introspect now = .ok out →
      ∃ p v i s, accounts = [p, v, i, s] ∧ 0 < v.lamports ∧
        out = (0, p.lamports + v.lamports)) := by
  constructor
  · intro p v i s data introspect now hown hlam
    simp [withdraw, WithdrawAccounts.tryFrom, hown, hlam]
  · intro data accounts introspect now out h
    rcases accounts with _ | ⟨p, _ | ⟨v, _ | ⟨i, _ | ⟨s, _ | ⟨x, rest⟩⟩⟩⟩⟩
    · simp [withdraw, WithdrawAccounts.tryFrom] at h
    · simp [withdraw, WithdrawAccounts.tryFrom] at h
    · simp [withdraw, WithdrawAccounts.tryFrom] at h
    · simp [withdraw, WithdrawAccounts.tryFrom] at h
    · refine ⟨p, v, i, s, rfl, ?_⟩
      by_cases hown : v.owner = systemProgramID
      · by_cases hlam : v.lamports = 0
        · simp [withdraw, WithdrawAccounts.tryFrom, hown, hlam] at h
        · by_cases hdl : data.length = 1
          · obtain ⟨b, rfl⟩ := List.length_eq_one.mp hdl
            rw [withdraw_unfold_ok p v i s b introspect now hown hlam] at h
            cases introspect with
            | fail e => simp [Withdraw.process] at h
            | ok secp =>
              by_cases hns : secp.num_signatures = 1
              · by_cases h32 : secp.message.length < 32
                · simp [Withdraw.process, hns, h32] at h
                · by_cases hpk : p.key = secp.message.take 32
                  · by_cases hdl8 : secp.message.length - 32 = 8
                    · by_cases hexp : now > i64_from_le (secp.message.drop 32)
                      · simp [Withdraw.process, hns, h32, hpk, hdl8, hexp] at h
                      · simp [Withdraw.process, hns, h32, hpk, hdl8, hexp,
                          transfer_invoke_signed] at h
                        split_ifs at h with hdk
                        simp only [VResult.ok.injEq] at h
                        exact ⟨Nat.pos_of_ne_zero hlam, h.symm⟩
                    · simp [Withdraw.process, hns, h32, hpk, hdl8] at h
                  · simp [Withdraw.process, hns, h32, hpk] at h
              · simp [Withdraw.process, hns] at h
          · simp [withdraw, WithdrawAccounts.tryFrom,
              WithdrawInstructionData.tryFrom, hown, hlam, hdl] at h
      · simp [withdraw, WithdrawAccounts.tryFrom, hown] at h
    · simp [withdraw, WithdrawAccounts.tryFrom] at h

/-- Witness for C2 (amended): a system-owned zero-balance vault is rejected
with `InvalidAccountData`, and the successful run drains 100 lamports to the
payer exactly. -/
theorem c2_drain_semantics_witness :
    withdraw [5] [payerC, vaultZeroC, instrAccC, sysAccC] (.ok secpC) 0 =
      .fail (.err .InvalidAccountData) ∧
    (∃ p v i s, ([payerC, vaultGoodC, instrAccC, sysAccC] : List AccountInfo) =
      [p, v, i, s] ∧ 0 < v.lamports ∧
      ((0, 110) : Nat × Nat) = (0, p.lamports + v.lamports)) :=
  ⟨c2_drain_semantics.1 payerC vaultZeroC instrAccC sysAccC [5] (.ok secpC) 0
      rfl rfl,
   c2_drain_semantics.2 [5] [payerC, vaultGoodC, instrAccC, sysAccC]
      (.ok secpC) 1 (0, 110) (by decide)⟩

/-- C6: evaluation at the failing input — a well-formed verification
instruction asserting exactly one signature whose verified message is only
31 bytes long makes Withdraw panic inside `split_at(32)` (withdraw.rs line
105) instead of returning `InvalidInstructionData`. -/
theorem c6_short_message_panics :
    withdraw [5] [payerC, vaultC, instrAccC, sysAccC] (.ok secpShortC) 0 =
      .fail .panicked := by decide

end Vault
